import Mathlib

/-!
Formal model of the filter/aggregation pipeline of
`Task2ViusalizationDashboard.py`: the data loader with its malformed-header
fallback, the sidebar filter, the metric summarizer and the five view
aggregators.  Rows are modelled as records over `ℚ`, tables as ordered
lists of rows, delimited files as lists of cell lists, and the reactive
script body as a pure function from the loaded table and the current
control values to a render outcome.
-/

/-- One row of `cleaned_global_water_consumption.csv` after loading. -/
structure Record where
  country : String
  year : Int
  total_consumption : ℚ
  per_capita_use : ℚ
  agricultural_pct : ℚ
  industrial_pct : ℚ
  household_pct : ℚ
  rainfall_mm : ℚ
  groundwater_depletion_pct : ℚ
  scarcity_level : String
deriving DecidableEq

/-- An in-memory relational table: an ordered list of rows, as a dataframe. -/
abbrev Table := List Record

/-- The sidebar state: the country multiselect, the year-range slider and the
scarcity-level multiselect (script lines 79-98). -/
structure Selection where
  countries : List String
  year_min : Int
  year_max : Int
  scarcity_levels : List String
deriving DecidableEq

/-- The boolean row mask of the sidebar filter: the conjunction of the three
masks on script lines 101-103. -/
def rowPred (sel : Selection) (r : Record) : Bool :=
  decide (r.country ∈ sel.countries) &&
    (decide (sel.year_min ≤ r.year) && decide (r.year ≤ sel.year_max)) &&
    decide (r.scarcity_level ∈ sel.scarcity_levels)

/-- Function `filtered_df` (line 100): the loaded table narrowed by the sidebar mask. -/
def filtered_df (df : Table) (sel : Selection) : Table :=
  df.filter (rowPred sel)

/-- Ascending order on total consumption (`sort_values` on line 170). -/
def consAsc (a b : Record) : Prop :=
  a.total_consumption ≤ b.total_consumption

instance : DecidableRel consAsc :=
  fun _ _ => inferInstanceAs (Decidable (_ ≤ _))

instance : IsTotal Record consAsc :=
  ⟨fun a b => le_total a.total_consumption b.total_consumption⟩

instance : IsTrans Record consAsc :=
  ⟨fun _ _ _ h1 h2 => le_trans h1 h2⟩

/-- Descending order on per-capita use (`sort_values` with `ascending=False`
on line 270). -/
def capitaDesc (a b : Record) : Prop :=
  b.per_capita_use ≤ a.per_capita_use

instance : DecidableRel capitaDesc :=
  fun _ _ => inferInstanceAs (Decidable (_ ≤ _))

instance : IsTotal Record capitaDesc :=
  ⟨fun a b => le_total b.per_capita_use a.per_capita_use⟩

instance : IsTrans Record capitaDesc :=
  ⟨fun _ _ _ h1 h2 => le_trans h2 h1⟩

/-- Model of `Series.mean`: an accumulating sum of the values divided by their count. -/
def qmean (l : List ℚ) : ℚ :=
  (l.foldl (· + ·) 0) / (l.length : ℚ)

/-- The four key metrics of lines 113-127, with the source variable names. -/
structure Metrics where
  avg_consumption : ℚ
  avg_per_capita : ℚ
  avg_agri : ℚ
  avg_depletion : ℚ
deriving DecidableEq

/-- Function `summarize`: the four header metrics, each a column mean over the
filtered table (lines 114, 118, 122, 126). -/
def summarize (f : Table) : Metrics :=
  { avg_consumption := qmean (f.map Record.total_consumption)
    avg_per_capita := qmean (f.map Record.per_capita_use)
    avg_agri := qmean (f.map Record.agricultural_pct)
    avg_depletion := qmean (f.map Record.groundwater_depletion_pct) }

/-- Rows of `f` whose country equals `c`: one bucket of `groupby(Country)`. -/
def countryRows (f : Table) (c : String) : Table :=
  f.filter (fun r => decide (r.country = c))

/-- Lexicographic comparison of character lists by code point, the order
the Python sorted builtin uses on strings. -/
def charsLe : List Char → List Char → Bool
  | [], _ => true
  | _ :: _, [] => false
  | a :: as, b :: bs =>
    if a.toNat < b.toNat then true
    else if b.toNat < a.toNat then false
    else charsLe as bs

/-- Lexicographic string order by code point. -/
def strLe (a b : String) : Prop :=
  charsLe a.data b.data = true

instance : DecidableRel strLe :=
  fun a b => instDecidableEqBool (charsLe a.data b.data) true

/-- The sorted distinct countries of a table (`sorted(unique())` on line 78,
and the sorted group keys of a pandas groupby). -/
def uniqueCountries (f : Table) : List String :=
  List.insertionSort strLe (f.map Record.country).dedup

/-- The sorted distinct years of a table. -/
def uniqueYears (f : Table) : List Int :=
  List.insertionSort (· ≤ ·) (f.map Record.year).dedup

/-- Function `map_data` (line 133): mean total consumption per country. -/
def map_data (f : Table) : List (String × ℚ) :=
  (uniqueCountries f).map
    (fun c => (c, qmean ((countryRows f c).map Record.total_consumption)))

/-- Function `year_df` (line 167): the sector-view slice of the filtered table at the
sector year slider value. -/
def year_df (f : Table) (y : Int) : Table :=
  f.filter (fun r => decide (r.year = y))

/-- Function `capita_df` (line 267): the ranking-view slice of the filtered table at
the per-capita year slider value. -/
def capita_df (f : Table) (y : Int) : Table :=
  f.filter (fun r => decide (r.year = y))

/-- Result shape of `pivot_table(index=Year, columns=Country, values=...)`:
an index of years, one column per country, and a cell matrix. -/
structure Pivot where
  index : List Int
  cols : List String
  cells : List (List (Option ℚ))
deriving DecidableEq

/-- Rows of `f` at a given year and country: the bucket of one pivot cell. -/
def cellRows (f : Table) (y : Int) (c : String) : Table :=
  f.filter (fun r => decide (r.year = y) && decide (r.country = c))

/-- Function `country_depletion` (lines 240-244): the groundwater depletion rate
pivoted to one row per year and one column (series) per country; a missing
(year, country) pair is `none` (`NaN`), an occupied one holds the mean of
its bucket (the default `aggfunc`). -/
def country_depletion (f : Table) : Pivot :=
  { index := uniqueYears f
    cols := uniqueCountries f
    cells := (uniqueYears f).map (fun y => (uniqueCountries f).map (fun c =>
      if (cellRows f y c).isEmpty then none
      else some (qmean ((cellRows f y c).map Record.groundwater_depletion_pct)))) }

/-- The ranked table behind the per-capita bar chart: the year slice sorted
descending by per-capita use (line 270). -/
def rankedCapita (f : Table) (y : Int) : Table :=
  List.insertionSort capitaDesc (capita_df f y)

/-- The sector chart input (lines 167-213): the year slice sorted ascending
by total consumption, or `none` for the no-data warning branch (line 213). -/
def sector_chart (f : Table) (y : Int) : Option Table :=
  if (year_df f y).isEmpty then none
  else some (List.insertionSort consAsc (year_df f y))

/-- The ranking chart input (lines 267-284): the year slice sorted descending
by per-capita use, or `none` for the no-data warning branch (line 284). -/
def ranking_chart (f : Table) (y : Int) : Option Table :=
  if (capita_df f y).isEmpty then none
  else some (rankedCapita f y)

/-- The five chart inputs produced from the filtered table and the two view
year sliders; `none` in the sector or ranking slot is the localized
`st.warning` no-data branch of that one view. -/
structure Views where
  mapView : List (String × ℚ)
  sectorView : Option Table
  rainfallView : Table
  depletionView : Pivot
  rankingView : Option Table
deriving DecidableEq

/-- All five chart inputs of one rerun of the script body. -/
def buildViews (f : Table) (sectorYear capitaYear : Int) : Views :=
  { mapView := map_data f
    sectorView := sector_chart f sectorYear
    rainfallView := f
    depletionView := country_depletion f
    rankingView := ranking_chart f capitaYear }

/-- Outcome of one script rerun after the sidebar: either the early
`st.error` plus `st.stop` on an empty filtered table (lines 106-108), or the
four metrics plus the five chart inputs. -/
inductive RenderOutcome where
  | noData : RenderOutcome
  | rendered : Metrics → Views → RenderOutcome
deriving DecidableEq

/-- The script body from `filtered_df` (line 100) downwards, as a pure
function of the loaded table and the current control values. -/
def runCycle (df : Table) (sel : Selection) (sectorYear capitaYear : Int) :
    RenderOutcome :=
  let f := filtered_df df sel
  if f.isEmpty then RenderOutcome.noData
  else RenderOutcome.rendered (summarize f) (buildViews f sectorYear capitaYear)

/-- A delimited file, already split into lines of cells. -/
structure CsvFile where
  lines : List (List String)
deriving DecidableEq

/-- A parsed frame: named columns plus data rows. -/
structure Frame where
  columns : List String
  rows : List (List String)
deriving DecidableEq

/-- Model of `pd.read_csv(path)` (line 62): the first line names the columns; an empty
file is a fatal load error. -/
def readCsv (file : CsvFile) : Option Frame :=
  match file.lines with
  | [] => none
  | c :: rs => some { columns := c, rows := rs }

/-- Model of `pd.read_csv(path, header=None)` (line 65): the first line fixes
the column count and the columns carry positional names; every line becomes a
data row, a line with more fields than the first raises a parse error
(modelled as `none`), and missing trailing fields are filled with the empty
cell, as pandas fills `NaN`. -/
def readCsvNoHeader (file : CsvFile) : Option Frame :=
  match file.lines with
  | [] => none
  | c :: rs =>
    if (c :: rs).all (fun l => decide (l.length ≤ c.length)) then
      some { columns := (List.range c.length).map toString
             rows := (c :: rs).map (fun l => l ++ List.replicate (c.length - l.length) "") }
    else none

/-- The malformed concatenated column name tested on line 64. -/
def malformedColumn : String :=
  "CountryYearTotal Water Consumption (Billion Cubic Meters)"

/-- The hardcoded positional field names assigned on lines 66-70. -/
def fallbackColumns : List String :=
  ["Country", "Year", "Total Water Consumption (Billion Cubic Meters)",
   "Per Capita Water Use (Liters per Day)", "Agricultural Water Use (%)",
   "Industrial Water Use (%)", "Household Water Use (%)",
   "Rainfall Impact (Annual Precipitation in mm)",
   "Groundwater Depletion Rate (%)", "Water Scarcity Level"]

/-- Model of the `df.columns = [...]` assignment (line 66): pandas raises a
length-mismatch error unless the name list has exactly one name per existing
column; the raise is modelled as `none`. -/
def assignColumns (df : Frame) (names : List String) : Option Frame :=
  if df.columns.length = names.length then some { df with columns := names }
  else none

/-- Function `load_data` (lines 60-72): read with a header row; if the
malformed concatenated column name is among the parsed columns, discard that
parse, re-read the same file with no header row and assign the hardcoded
positional names to its columns.  `none` models any raised load error: a
missing or empty file, a ragged headerless re-parse, or a positional
assignment whose name count differs from the column count (line 66). -/
def load_data (file : CsvFile) : Option Frame :=
  match readCsv file with
  | none => none
  | some df =>
    if malformedColumn ∈ df.columns then
      (readCsvNoHeader file).bind (fun df2 => assignColumns df2 fallbackColumns)
    else
      some df

/-- Variable `all_countries` (line 78). -/
def all_countries (df : Table) : List String :=
  uniqueCountries df

/-- Variable `min_year` (line 85); `0` is a junk value on the empty table, where
pandas would not produce an integer at all. -/
def min_year (df : Table) : Int :=
  match df with
  | [] => 0
  | r :: rs => rs.foldl (fun m x => min m x.year) r.year

/-- Variable `max_year` (line 85); `0` is a junk value on the empty table. -/
def max_year (df : Table) : Int :=
  match df with
  | [] => 0
  | r :: rs => rs.foldl (fun m x => max m x.year) r.year

/-- Variable `scarcity_levels` (line 93). -/
def scarcity_levels (df : Table) : List String :=
  List.insertionSort strLe (df.map Record.scarcity_level).dedup

/-- The default sidebar state: every country, the full year range and every
scarcity level of the loaded table (lines 79-98 defaults). -/
def fullSelection (df : Table) : Selection :=
  { countries := all_countries df
    year_min := min_year df
    year_max := max_year df
    scarcity_levels := scarcity_levels df }

/-- A first sample row used by concrete witnesses. -/
def row1 : Record :=
  { country := "Egypt", year := 2000, total_consumption := 10
    per_capita_use := 3, agricultural_pct := 50, industrial_pct := 30
    household_pct := 20, rainfall_mm := 100, groundwater_depletion_pct := 2
    scarcity_level := "High" }

/-- A second sample row used by concrete witnesses. -/
def row2 : Record :=
  { country := "Brazil", year := 2001, total_consumption := 20
    per_capita_use := 7, agricultural_pct := 40, industrial_pct := 35
    household_pct := 25, rainfall_mm := 1500, groundwater_depletion_pct := -1
    scarcity_level := "Low" }

/-- A two-row sample table used by concrete witnesses. -/
def sampleTable : Table :=
  [row1, row2]

theorem rowPred_iff (sel : Selection) (r : Record) :
    rowPred sel r = true ↔
      (r.country ∈ sel.countries ∧ sel.year_min ≤ r.year ∧
        r.year ≤ sel.year_max ∧ r.scarcity_level ∈ sel.scarcity_levels) := by
  simp [rowPred, and_assoc]

/-- Claim C1: for every table and every filter selection, the filtered table
is a subset of the table, every row of it satisfies the three-predicate
conjunction, and no row of the table satisfying the conjunction is
omitted. -/
theorem filtered_df_spec (df : Table) (sel : Selection) :
    (∀ r ∈ filtered_df df sel, r ∈ df ∧
      (r.country ∈ sel.countries ∧ sel.year_min ≤ r.year ∧
        r.year ≤ sel.year_max ∧ r.scarcity_level ∈ sel.scarcity_levels)) ∧
    (∀ r ∈ df, (r.country ∈ sel.countries ∧ sel.year_min ≤ r.year ∧
        r.year ≤ sel.year_max ∧ r.scarcity_level ∈ sel.scarcity_levels) →
      r ∈ filtered_df df sel) := by
  constructor
  · intro r hr
    rcases List.mem_filter.mp hr with ⟨hmem, hp⟩
    exact ⟨hmem, (rowPred_iff sel r).mp hp⟩
  · intro r hr hp
    exact List.mem_filter.mpr ⟨hr, (rowPred_iff sel r).mpr hp⟩

/-- Claim C10: filtering preserves relative order (the filtered table is a
sublist of the table), each occurrence of a qualifying row of the table
appears exactly once (counts are preserved, so in particular no row is
duplicated), and non-qualifying rows do not appear. -/
theorem filtered_df_order_count (df : Table) (sel : Selection) :
    (filtered_df df sel).Sublist df ∧
    (∀ r : Record,
      (rowPred sel r = true → (filtered_df df sel).count r = df.count r) ∧
      (rowPred sel r = false → (filtered_df df sel).count r = 0)) := by
  refine ⟨List.filter_sublist df, fun r => ⟨fun hp => List.count_filter hp, fun hp => ?_⟩⟩
  refine List.count_eq_zero.mpr (fun hmem => ?_)
  rcases List.mem_filter.mp hmem with ⟨-, hp2⟩
  rw [hp] at hp2
  cases hp2

theorem foldl_min_le_init (g : Record → Int) (rs : List Record) (a : Int) :
    rs.foldl (fun m x => min m (g x)) a ≤ a := by
  induction rs generalizing a with
  | nil => simp
  | cons z zs ih => exact le_trans (ih (min a (g z))) (min_le_left a (g z))

theorem foldl_min_le_mem (g : Record → Int) (rs : List Record) (a : Int)
    (r : Record) (hr : r ∈ rs) :
    rs.foldl (fun m x => min m (g x)) a ≤ g r := by
  induction rs generalizing a with
  | nil => cases hr
  | cons z zs ih =>
    rcases List.mem_cons.mp hr with h | h
    · subst h
      exact le_trans (foldl_min_le_init g zs (min a (g r))) (min_le_right a (g r))
    · exact ih (min a (g z)) h

theorem le_foldl_max_init (g : Record → Int) (rs : List Record) (a : Int) :
    a ≤ rs.foldl (fun m x => max m (g x)) a := by
  induction rs generalizing a with
  | nil => simp
  | cons z zs ih => exact le_trans (le_max_left a (g z)) (ih (max a (g z)))

theorem le_foldl_max_mem (g : Record → Int) (rs : List Record) (a : Int)
    (r : Record) (hr : r ∈ rs) :
    g r ≤ rs.foldl (fun m x => max m (g x)) a := by
  induction rs generalizing a with
  | nil => cases hr
  | cons z zs ih =>
    rcases List.mem_cons.mp hr with h | h
    · subst h
      exact le_trans (le_max_right a (g r)) (le_foldl_max_init g zs (max a (g r)))
    · exact ih (max a (g z)) h

theorem min_year_le (df : Table) (r : Record) (hr : r ∈ df) :
    min_year df ≤ r.year := by
  cases df with
  | nil => cases hr
  | cons r0 rs =>
    rcases List.mem_cons.mp hr with h | h
    · subst h
      exact foldl_min_le_init Record.year rs r.year
    · exact foldl_min_le_mem Record.year rs r0.year r h

theorem le_max_year (df : Table) (r : Record) (hr : r ∈ df) :
    r.year ≤ max_year df := by
  cases df with
  | nil => cases hr
  | cons r0 rs =>
    rcases List.mem_cons.mp hr with h | h
    · subst h
      exact le_foldl_max_init Record.year rs r.year
    · exact le_foldl_max_mem Record.year rs r0.year r h

/-- Claim C9: selecting all countries present in the table, the full year
range from the minimum to the maximum year of the table, and all scarcity levels
present in the table yields a filtered table equal to the table. -/
theorem full_selection_identity (df : Table) :
    filtered_df df (fullSelection df) = df := by
  refine List.filter_eq_self.mpr (fun r hr => ?_)
  refine (rowPred_iff (fullSelection df) r).mpr ⟨?_, ?_, ?_, ?_⟩
  · simp only [fullSelection, all_countries, uniqueCountries,
      List.mem_insertionSort, List.mem_dedup, List.mem_map]
    exact ⟨r, hr, rfl⟩
  · exact min_year_le df r hr
  · exact le_max_year df r hr
  · simp only [fullSelection, scarcity_levels,
      List.mem_insertionSort, List.mem_dedup, List.mem_map]
    exact ⟨r, hr, rfl⟩

/-- Claim C2: a filter selection whose filtered table is empty makes the
script stop with the no-data indication: the outcome carries no metrics and
no views, so neither the summarizer nor any view aggregator is evaluated. -/
theorem empty_filter_halts (df : Table) (sel : Selection) (sy cy : Int)
    (h : filtered_df df sel = []) :
    runCycle df sel sy cy = RenderOutcome.noData ∧
    (∀ (m : Metrics) (v : Views), runCycle df sel sy cy ≠ RenderOutcome.rendered m v) := by
  have hrun : runCycle df sel sy cy = RenderOutcome.noData := by
    simp [runCycle, h]
  exact ⟨hrun, fun m v hcon => by rw [hrun] at hcon; cases hcon⟩

/-- Witness for claim C2: the spec scenario of a year range (1800-1900)
outside the data makes the sample cycle end in the no-data outcome. -/
theorem empty_filter_halts_w :
    filtered_df sampleTable ⟨["Egypt", "Brazil"], 1800, 1900, ["High", "Low"]⟩ = [] ∧
    runCycle sampleTable ⟨["Egypt", "Brazil"], 1800, 1900, ["High", "Low"]⟩ 1800 1800 =
      RenderOutcome.noData :=
  ⟨by decide, (empty_filter_halts sampleTable ⟨["Egypt", "Brazil"], 1800, 1900, ["High", "Low"]⟩
      1800 1800 (by decide)).1⟩

theorem foldl_add_eq_sum (l : List ℚ) (a : ℚ) : l.foldl (· + ·) a = a + l.sum := by
  induction l generalizing a with
  | nil => simp
  | cons x xs ih =>
    rw [List.foldl_cons, ih, List.sum_cons]
    ring

/-- Claim C5: on a non-empty filtered table, each of the four metrics equals
the arithmetic mean (the sum of the field over all rows divided by the row
count) of the corresponding field. -/
theorem summarize_is_mean (f : Table) (h : f ≠ []) :
    (summarize f).avg_consumption =
        (f.map Record.total_consumption).sum / (f.length : ℚ) ∧
    (summarize f).avg_per_capita =
        (f.map Record.per_capita_use).sum / (f.length : ℚ) ∧
    (summarize f).avg_agri =
        (f.map Record.agricultural_pct).sum / (f.length : ℚ) ∧
    (summarize f).avg_depletion =
        (f.map Record.groundwater_depletion_pct).sum / (f.length : ℚ) := by
  refine ⟨?_, ?_, ?_, ?_⟩ <;>
    simp [summarize, qmean, foldl_add_eq_sum, List.length_map]

/-- Witness for claim C5: the mean equations instantiated on the two-row
sample table. -/
theorem summarize_is_mean_w :
    (summarize sampleTable).avg_consumption =
      (sampleTable.map Record.total_consumption).sum / (sampleTable.length : ℚ) :=
  (summarize_is_mean sampleTable (by decide)).1

/-- Claim C6: on a non-empty filtered table, a per-view selected year whose
slice is empty turns only that view (sector or ranking) into the no-data
indication, while the metrics and every other view are produced normally
from the filtered table. -/
theorem empty_year_slice_localized (df : Table) (sel : Selection) (sy cy : Int)
    (hne : filtered_df df sel ≠ []) :
    (year_df (filtered_df df sel) sy = [] →
      runCycle df sel sy cy = RenderOutcome.rendered (summarize (filtered_df df sel))
        { mapView := map_data (filtered_df df sel)
          sectorView := none
          rainfallView := filtered_df df sel
          depletionView := country_depletion (filtered_df df sel)
          rankingView := ranking_chart (filtered_df df sel) cy }) ∧
    (capita_df (filtered_df df sel) cy = [] →
      runCycle df sel sy cy = RenderOutcome.rendered (summarize (filtered_df df sel))
        { mapView := map_data (filtered_df df sel)
          sectorView := sector_chart (filtered_df df sel) sy
          rainfallView := filtered_df df sel
          depletionView := country_depletion (filtered_df df sel)
          rankingView := none }) := by
  have hf : (filtered_df df sel).isEmpty = false := List.isEmpty_eq_false.mpr hne
  constructor
  · intro hs
    simp [runCycle, hf, buildViews, sector_chart, hs]
  · intro hs
    simp [runCycle, hf, buildViews, ranking_chart, hs]

/-- Witness for claim C6: on the sample table with the full default
selection, sector year 1999 has an empty slice, so the sector slot is the
no-data indication while the ranking view for year 2000 renders. -/
theorem empty_year_slice_localized_w :
    runCycle sampleTable (fullSelection sampleTable) 1999 2000 =
      RenderOutcome.rendered (summarize (filtered_df sampleTable (fullSelection sampleTable)))
        { mapView := map_data (filtered_df sampleTable (fullSelection sampleTable))
          sectorView := none
          rainfallView := filtered_df sampleTable (fullSelection sampleTable)
          depletionView := country_depletion (filtered_df sampleTable (fullSelection sampleTable))
          rankingView := ranking_chart (filtered_df sampleTable (fullSelection sampleTable)) 2000 } :=
  (empty_year_slice_localized sampleTable (fullSelection sampleTable) 1999 2000
      (by decide)).1 (by decide)

/-- Claim C7: for every filtered table, the depletion-trend pivot has
exactly one index row per distinct year present in the filtered table and
exactly one column per distinct country present in it. -/
theorem country_depletion_shape (df : Table) (sel : Selection) :
    (country_depletion (filtered_df df sel)).index.Nodup ∧
    (∀ y : Int, y ∈ (country_depletion (filtered_df df sel)).index ↔
      y ∈ (filtered_df df sel).map Record.year) ∧
    (country_depletion (filtered_df df sel)).cols.Nodup ∧
    (∀ c : String, c ∈ (country_depletion (filtered_df df sel)).cols ↔
      c ∈ (filtered_df df sel).map Record.country) := by
  refine ⟨?_, fun y => ?_, ?_, fun c => ?_⟩
  · exact ((List.perm_insertionSort _ _).nodup_iff).mpr (List.nodup_dedup _)
  · simp [country_depletion, uniqueYears]
  · exact ((List.perm_insertionSort _ _).nodup_iff).mpr (List.nodup_dedup _)
  · simp [country_depletion, uniqueCountries]

/-- Claim C8: the per-capita ranking output is a permutation of the selected
year slice of the filtered table (so every row of the slice, ties
included, appears exactly once: counts are preserved) and is sorted in
descending order of per-capita use. -/
theorem ranking_once_sorted (df : Table) (sel : Selection) (y : Int) :
    (rankedCapita (filtered_df df sel) y).Perm (capita_df (filtered_df df sel) y) ∧
    List.Pairwise (fun a b => b.per_capita_use ≤ a.per_capita_use)
      (rankedCapita (filtered_df df sel) y) ∧
    (∀ r : Record, (rankedCapita (filtered_df df sel) y).count r =
      (capita_df (filtered_df df sel) y).count r) := by
  refine ⟨List.perm_insertionSort capitaDesc _, ?_,
    fun r => (List.perm_insertionSort capitaDesc _).count_eq r⟩
  have hs := List.sorted_insertionSort capitaDesc (capita_df (filtered_df df sel) y)
  simpa [List.Sorted, capitaDesc] using hs

theorem readCsv_lines (file : CsvFile) (df : Frame) (h : readCsv file = some df) :
    file.lines = df.columns :: df.rows := by
  cases file with
  | mk ls =>
    cases ls with
    | nil => simp [readCsv] at h
    | cons c rs =>
      simp only [readCsv, Option.some.injEq] at h
      subst h
      rfl

/-- Helper: a map whose function fixes every member of the list is the
identity on that list. -/
theorem map_mem_id {a : Type} (f : a → a) (l : List a) (h : ∀ x ∈ l, f x = x) :
    l.map f = l := by
  induction l with
  | nil => rfl
  | cons x xs ih =>
    rw [List.map_cons, h x (List.mem_cons_self x xs),
      ih (fun y hy => h y (List.mem_cons_of_mem x hy))]

theorem readCsvNoHeader_rect (w : Nat) (c : List String) (rs : List (List String))
    (hall : ∀ l ∈ c :: rs, l.length = w) :
    readCsvNoHeader ⟨c :: rs⟩ = some ⟨(List.range w).map toString, c :: rs⟩ := by
  have hc : c.length = w := hall c (List.mem_cons_self c rs)
  have hcond : ((c :: rs).all fun l => decide (l.length ≤ c.length)) = true := by
    rw [List.all_eq_true]
    intro l hl
    exact decide_eq_true (le_of_eq (by rw [hall l hl, hc]))
  have hpad : (c :: rs).map (fun l => l ++ List.replicate (w - l.length) "") = c :: rs := by
    apply map_mem_id
    intro l hl
    show l ++ List.replicate (w - l.length) "" = l
    rw [hall l hl, Nat.sub_self, List.replicate_zero, List.append_nil]
  simp only [readCsvNoHeader]
  rw [if_pos hcond, hc, hpad]

theorem readCsvNoHeader_cols (c : List String) (rs : List (List String)) (df2 : Frame)
    (h : readCsvNoHeader ⟨c :: rs⟩ = some df2) :
    df2.columns = (List.range c.length).map toString := by
  simp only [readCsvNoHeader] at h
  split at h
  · rw [← Option.some.inj h]
  · exact Option.noConfusion h

theorem readCsvNoHeader_rows_len (file : CsvFile) (df2 : Frame)
    (h : readCsvNoHeader file = some df2) :
    df2.rows.length = file.lines.length := by
  cases file with
  | mk ls =>
    cases ls with
    | nil => simp [readCsvNoHeader] at h
    | cons c rs =>
      simp only [readCsvNoHeader] at h
      split at h
      · rw [← Option.some.inj h]
        simp
      · exact Option.noConfusion h

/-- Bland extra column names completing a ten-cell malformed header. -/
def extraCols : List String :=
  ["a2", "a3", "a4", "a5", "a6", "a7", "a8", "a9", "a10"]

/-- A ten-cell header line containing the malformed concatenated name among
other columns. -/
def malHeader10 : List String :=
  malformedColumn :: extraCols

/-- A ten-cell data line. -/
def dataRow10 : List String :=
  ["r1", "r2", "r3", "r4", "r5", "r6", "r7", "r8", "r9", "r10"]

/-- A ten-column malformed file, on which the real loader succeeds end to
end: the membership test fires, the headerless re-parse has ten columns, and
the positional assignment of ten names succeeds. -/
def malFile10 : CsvFile :=
  ⟨[malHeader10, dataRow10]⟩

/-- Claim C3 counterexample: on a ten-column first parse that merely contains
the malformed concatenated name among other columns, the loader still
discards that parse and re-reads headerless (the width-ten rename then
succeeds, as in the real code), so "a single malformed column ... and only
that case" fails; moreover the malformed name is the concatenation of the
first three expected header names, not of four. -/
theorem fallback_not_single_column :
    (readCsv malFile10).map Frame.columns = some malHeader10 ∧
    malHeader10 ≠ [malformedColumn] ∧
    load_data malFile10 = some ⟨fallbackColumns, malFile10.lines⟩ ∧
    fallbackColumns ≠ malHeader10 ∧
    malformedColumn =
      "Country" ++ "Year" ++ "Total Water Consumption (Billion Cubic Meters)" ∧
    malformedColumn ≠ String.join (fallbackColumns.take 4) := by
  refine ⟨rfl, by decide, by decide, by decide, rfl, by decide⟩

/-- Claim C3 amended: given that the first parse succeeds, the loader
discards it and takes the headerless fallback path - whose outcome is the
positional rename applied to the headerless re-parse, each step failing
exactly where the real parser and assignment raise - precisely when the
malformed concatenated column name is among the parsed columns, whether or
not it is the only column. -/
theorem fallback_trigger_iff (file : CsvFile) (df : Frame)
    (h : readCsv file = some df) :
    load_data file =
      ((readCsvNoHeader file).bind (fun df2 => assignColumns df2 fallbackColumns)) ↔
    malformedColumn ∈ df.columns := by
  have hl := readCsv_lines file df h
  by_cases hm : malformedColumn ∈ df.columns
  · constructor
    · intro _
      exact hm
    · intro _
      simp [load_data, h, hm]
  · constructor
    · intro hld
      exfalso
      have hld2 : some df =
          ((readCsvNoHeader file).bind (fun df2 => assignColumns df2 fallbackColumns)) := by
        rw [← hld]
        simp [load_data, h, hm]
      cases hnh : readCsvNoHeader file with
      | none =>
        rw [hnh] at hld2
        simp at hld2
      | some df2 =>
        rw [hnh] at hld2
        have hld3 : some df = assignColumns df2 fallbackColumns := hld2
        by_cases hw : df2.columns.length = fallbackColumns.length
        · rw [assignColumns, if_pos hw] at hld3
          have hdf : df = { df2 with columns := fallbackColumns } := Option.some.inj hld3
          have hlen : df.rows.length = df2.rows.length := by rw [hdf]
          rw [readCsvNoHeader_rows_len file df2 hnh, hl] at hlen
          simp at hlen
        · rw [assignColumns, if_neg hw] at hld3
          exact Option.noConfusion hld3
    · intro hm2
      exact absurd hm2 hm

/-- Witness for claim C3: the trigger equivalence instantiated at the
ten-column malformed file. -/
theorem fallback_trigger_iff_w :
    load_data malFile10 =
      ((readCsvNoHeader malFile10).bind (fun df2 => assignColumns df2 fallbackColumns)) :=
  (fallback_trigger_iff malFile10 ⟨malHeader10, [dataRow10]⟩ rfl).mpr (by decide)

/-- Claim C4 counterexample: the hardcoded positional list has ten names,
not nine; on the single-column malformed file of the original scenario the
positional assignment fails, so the load raises instead of producing a
table; and on a ten-column malformed file, where the loader does succeed,
the fallback table has one more row than the loader produces on a
well-formed file with the same data rows. -/
theorem fallback_columns_cex :
    fallbackColumns.length ≠ 9 ∧
    load_data ⟨[[malformedColumn], ["a"], ["b"]]⟩ = none ∧
    (load_data malFile10).map (fun fr => fr.rows.length) = some 2 ∧
    (load_data ⟨[fallbackColumns, dataRow10]⟩).map (fun fr => fr.rows.length) =
      some 1 := by
  refine ⟨by decide, by decide, by decide, by decide⟩

/-- Claim C4 amended: when the fallback triggers, the loader assigns exactly
the ten hardcoded field names positionally to the headerless re-parse; the
assignment succeeds only when that re-parse has exactly ten columns, in
which case every file line is kept as a data row, so the resulting table has
one more row than the loader produces on a well-formed file carrying the
same data rows; with any other first-line width the load fails. -/
theorem fallback_row_count (hdr : List String) (d : List (List String))
    (hm : malformedColumn ∈ hdr) (hw : hdr.length = 10)
    (hd : ∀ l ∈ d, l.length = 10) :
    load_data ⟨hdr :: d⟩ = some ⟨fallbackColumns, hdr :: d⟩ ∧
    fallbackColumns.length = 10 ∧
    load_data ⟨fallbackColumns :: d⟩ = some ⟨fallbackColumns, d⟩ ∧
    (hdr :: d).length = d.length + 1 ∧
    (∀ (hdr2 : List String) (d2 : List (List String)),
      malformedColumn ∈ hdr2 → hdr2.length ≠ 10 → load_data ⟨hdr2 :: d2⟩ = none) := by
  refine ⟨?_, rfl, ?_, rfl, ?_⟩
  · have hall : ∀ l ∈ hdr :: d, l.length = 10 := by
      intro l hl
      rcases List.mem_cons.mp hl with rfl | h2
      · exact hw
      · exact hd l h2
    have hnh := readCsvNoHeader_rect 10 hdr d hall
    simp [load_data, readCsv, hm, hnh, assignColumns, fallbackColumns]
  · have hnot : malformedColumn ∉ fallbackColumns := by decide
    simp [load_data, readCsv, hnot]
  · intro hdr2 d2 hm2 hw2
    cases hnh2 : readCsvNoHeader ⟨hdr2 :: d2⟩ with
    | none => simp [load_data, readCsv, hm2, hnh2]
    | some df2 =>
      have hcols := readCsvNoHeader_cols hdr2 d2 df2 hnh2
      have hlen : df2.columns.length ≠ fallbackColumns.length := by
        rw [hcols]
        simpa [fallbackColumns] using hw2
      simp [load_data, readCsv, hm2, hnh2, assignColumns, hlen]

/-- Witness for claim C4: on the ten-column malformed file the fallback load
succeeds, keeping both file lines as data rows under the ten hardcoded
names. -/
theorem fallback_row_count_w :
    load_data ⟨malHeader10 :: [dataRow10]⟩ =
      some ⟨fallbackColumns, malHeader10 :: [dataRow10]⟩ :=
  (fallback_row_count malHeader10 [dataRow10] (by decide) (by decide) (by decide)).1
